import Mathlib

/-!
# tesoql-echo: the Echo adapter around the TesoQL engine

A shallow embedding of `handler.go` and `response.go`.

* Go `int` values are `Int`; `/` on them is the truncating quotient `Int.tdiv`.
* A Go `error` return is `Option String` (`none` is `nil`).
* `echo.Context` is state: the inbound request and the list of responses written through
  `c.JSON`, oldest first.  Stateful functions take the state and give back the new one.
* The libraries the package imports (`tesoql`, Echo's binder) are not part of the package;
  what the handler uses of them is collected in `Env` and taken as a parameter.
* Every call the handler makes to a collaborator is recorded, in order, in `World.calls`.
* The error function is first a function of the context and its four arguments; the
  namespace `Stateful` embeds the handler again for a func value that closes over variables
  and changes them from call to call.
-/

namespace TesoqlEcho

/-! ## Data model -/

/-- The Go value `interface{}` as it comes out of a JSON decoder. -/
inductive JsonValue where
  | null : JsonValue
  | bool (b : Bool) : JsonValue
  | number (mantissa exponent : Int) : JsonValue
  | string (s : String) : JsonValue
  | array (items : List JsonValue) : JsonValue
  | object (members : List (String × JsonValue)) : JsonValue

/-- The type `tesoql.JsonMap`, a `map[string]interface{}`; also the shape of one result row. -/
abbrev JsonMap := List (String × JsonValue)

/-- A Go `error` value: `none` is `nil`. -/
abbrev GoError := Option String

/-- The structured error of the `tesoql` library, with the three fields the handler reads. -/
structure ErrorModel where
  ErrorCode : Int
  ErrorType : String
  ErrorMsg : String

/-- The struct `GenericResponseModel` of `response.go`. -/
structure GenericResponseModel where
  Size : Int
  TotalCount : Int
  Data : List JsonMap

/-- The struct `HttpError` of `response.go`. -/
structure HttpError where
  Code : Int
  Key : String
  Message : String
  TesoQlErrCode : Int

/-- The method `(e *HttpError) Error()`. -/
def HttpError.Error (e : HttpError) : String :=
  e.Key ++ ": " ++ e.Message

/-- The two values this package hands to `c.JSON`. -/
inductive Body where
  | response (m : GenericResponseModel) : Body
  | error (e : HttpError) : Body

/-- One response written to the client: the HTTP status and the JSON body. -/
structure Response where
  status : Int
  body : Body

/-- The inbound HTTP request, as far as the handler sees it. -/
structure Request where
  body : String

/-- The state behind an `echo.Context`: the request and the responses written so far. -/
structure Context where
  request : Request
  responses : List Response

/-- The constant `http.StatusBadRequest`. -/
def StatusBadRequest : Int := 400

/-- The constant `http.StatusOK`. -/
def StatusOK : Int := 200

/-- The method `c.JSON(code, i)` of Echo: writes `i` as the JSON body with status `code`. -/
def Context.JSON (c : Context) (code : Int) (i : Body) : GoError × Context :=
  (none, { c with responses := c.responses ++ [{ status := code, body := i }] })

/-- The signature of the error function held by the adapter. -/
abbrev ErrorFunc := Context → Int → String → String → Int → GoError × Context

/-- What the handler uses of the imported libraries: the two `tesoql` constants, Echo's
binder for the request body, the validator, the engine builder and the service's `Get`. -/
structure Env (Config TesoQL : Type) where
  BINDING_ERR : String
  BINDING_ERR_CODE : Int
  Bind : Request → Except String JsonMap
  NewTesoQL : Config → TesoQL
  Validate : JsonMap → Config → Option ErrorModel
  Get : TesoQL → JsonMap → List JsonMap × Int × Int × Option ErrorModel

/-- The struct `TesoQLEcho` of `handler.go`. -/
structure TesoQLEcho (Config TesoQL : Type) where
  tesoQL : TesoQL
  cfg : Config
  customErrorFunc : ErrorFunc

/-- A call made by the handler to one of its collaborators. -/
inductive Call where
  | bind : Call
  | validate (jsonMap : JsonMap) : Call
  | get (jsonMap : JsonMap) : Call
  | errorFunc (errCode : Int) (key : String) (msg : String) (tesoQlCode : Int) : Call
  | json (code : Int) (resp : GenericResponseModel) : Call

/-- The state a request runs in: the adapter behind the receiver `te`, the context `c`,
and the record of the calls made so far. -/
structure World (Config TesoQL : Type) where
  adapter : TesoQLEcho Config TesoQL
  ctx : Context
  calls : List Call

/-! ## response.go -/

/-- The function `newTesoQlResponseModel` of `response.go`. -/
def newTesoQlResponseModel (totalCount : Int) (size : Int) (data : List JsonMap) :
    GenericResponseModel :=
  { Size := size, TotalCount := totalCount, Data := data }

/-- The function `NewHTTPError` of `response.go`. -/
def NewHTTPError (c : Context) (errCode : Int) (key : String) (msg : String)
    (tesoQlCode : Int) : GoError × Context :=
  let err : HttpError :=
    { Code := errCode, Key := key, Message := msg, TesoQlErrCode := tesoQlCode }
  c.JSON err.Code (Body.error err)

/-! ## handler.go -/

section Handler

variable {Config TesoQL : Type}

/-- The function `NewTesoQLEcho` of `handler.go`; the variadic `customErrorFn` is a list. -/
def NewTesoQLEcho (env : Env Config TesoQL) (cfg : Config) (customErrorFn : List ErrorFunc) :
    TesoQLEcho Config TesoQL :=
  let tesoQL := env.NewTesoQL cfg
  let customErrorFunc : ErrorFunc :=
    if h : customErrorFn.length > 0 then customErrorFn.get ⟨0, h⟩ else NewHTTPError
  { tesoQL := tesoQL, cfg := cfg, customErrorFunc := customErrorFunc }

/-- The call `c.Bind(&jsonMap)`. -/
def callBind (env : Env Config TesoQL) (w : World Config TesoQL) :
    Except String JsonMap × World Config TesoQL :=
  (env.Bind w.ctx.request, { w with calls := w.calls ++ [Call.bind] })

/-- The call `jsonMap.Validate(te.cfg)`. -/
def callValidate (env : Env Config TesoQL) (jsonMap : JsonMap) (cfg : Config)
    (w : World Config TesoQL) : Option ErrorModel × World Config TesoQL :=
  (env.Validate jsonMap cfg, { w with calls := w.calls ++ [Call.validate jsonMap] })

/-- The call `service.Get(&jsonMap)`. -/
def callGet (env : Env Config TesoQL) (tesoQL : TesoQL) (jsonMap : JsonMap)
    (w : World Config TesoQL) :
    (List JsonMap × Int × Int × Option ErrorModel) × World Config TesoQL :=
  (env.Get tesoQL jsonMap, { w with calls := w.calls ++ [Call.get jsonMap] })

/-- The call `te.customErrorFunc(c, errCode, key, msg, tesoQlCode)`. -/
def callErrorFunc (f : ErrorFunc) (errCode : Int) (key : String) (msg : String)
    (tesoQlCode : Int) (w : World Config TesoQL) : GoError × World Config TesoQL :=
  let r := f w.ctx errCode key msg tesoQlCode
  (r.1, { w with ctx := r.2, calls := w.calls ++ [Call.errorFunc errCode key msg tesoQlCode] })

/-- The handler's own call `c.JSON(code, resp)`. -/
def callJSON (code : Int) (resp : GenericResponseModel) (w : World Config TesoQL) :
    GoError × World Config TesoQL :=
  let r := w.ctx.JSON code (Body.response resp)
  (r.1, { w with ctx := r.2, calls := w.calls ++ [Call.json code resp] })

/-- The method `TesoQLHandler` of `handler.go`. -/
def TesoQLHandler (env : Env Config TesoQL) (w : World Config TesoQL) :
    GoError × World Config TesoQL :=
  let te := w.adapter
  let (err, w) := callBind env w
  match err with
  | Except.error _ =>
    callErrorFunc te.customErrorFunc
      StatusBadRequest
      env.BINDING_ERR
      "Error encountered while binding the request payload!"
      env.BINDING_ERR_CODE w
  | Except.ok jsonMap =>
    let (validationErr, w) := callValidate env jsonMap te.cfg w
    match validationErr with
    | some validationErr =>
      callErrorFunc te.customErrorFunc
        (validationErr.ErrorCode.tdiv 1000)
        validationErr.ErrorType
        validationErr.ErrorMsg
        validationErr.ErrorCode w
    | none =>
      let ((data, totalCount, length, serviceErr), w) := callGet env te.tesoQL jsonMap w
      match serviceErr with
      | some serviceErr =>
        callErrorFunc te.customErrorFunc
          (serviceErr.ErrorCode.tdiv 1000)
          serviceErr.ErrorType
          serviceErr.ErrorMsg
          serviceErr.ErrorCode w
      | none =>
        let resp := newTesoQlResponseModel totalCount length data
        callJSON StatusOK resp w

/-- The calls made while handling one request: what the handler adds to the record. -/
def newCalls (env : Env Config TesoQL) (w : World Config TesoQL) : List Call :=
  (TesoQLHandler env w).2.calls.drop w.calls.length

/-- The envelopes written while handling one request. -/
def newResponses (env : Env Config TesoQL) (w : World Config TesoQL) : List Response :=
  (TesoQLHandler env w).2.ctx.responses.drop w.ctx.responses.length

end Handler

/-- Whether a call is an invocation of the adapter's error function. -/
def Call.isErrorFunc : Call → Bool
  | Call.errorFunc _ _ _ _ => true
  | _ => false

/-- Whether a call is a call of the validator. -/
def Call.isValidate : Call → Bool
  | Call.validate _ => true
  | _ => false

/-- Whether a call is a call of the execution service. -/
def Call.isGet : Call → Bool
  | Call.get _ => true
  | _ => false

/-- Whether a call is the handler's own transmission of a response model. -/
def Call.isJson : Call → Bool
  | Call.json _ _ => true
  | _ => false

/-! ## handler.go, for an error function that closes over variables

A Go func value may close over variables of its own and assign to them when it is called.
`Stateful` embeds `handler.go` a second time for such an error function: `S` is the type of
the values of the variables it closes over, `World.vars` holds them between calls, and a
call of the error function takes them and gives back their new values.  The handler itself
is the same text as above. -/

namespace Stateful

/-- The signature of the error function held by the adapter, for a func value that closes
over variables with values in S. -/
abbrev ErrorFunc (S : Type) :=
  S → Context → Int → String → String → Int → GoError × Context × S

/-- The struct `TesoQLEcho` of `handler.go`. -/
structure TesoQLEcho (Config TesoQL S : Type) where
  tesoQL : TesoQL
  cfg : Config
  customErrorFunc : ErrorFunc S

/-- The state a request runs in: the adapter behind the receiver `te`, the variables the
error function closes over, the context `c`, and the record of the calls made so far. -/
structure World (Config TesoQL S : Type) where
  adapter : TesoQLEcho Config TesoQL S
  vars : S
  ctx : Context
  calls : List Call

section Handler

variable {Config TesoQL S : Type}

/-- The function `NewHTTPError` of `response.go`: it closes over nothing, so the variables
come back as they were. -/
def NewHTTPError (s : S) (c : Context) (errCode : Int) (key : String) (msg : String)
    (tesoQlCode : Int) : GoError × Context × S :=
  let err : HttpError :=
    { Code := errCode, Key := key, Message := msg, TesoQlErrCode := tesoQlCode }
  let r := c.JSON err.Code (Body.error err)
  (r.1, r.2, s)

/-- The function `NewTesoQLEcho` of `handler.go`; the variadic `customErrorFn` is a list. -/
def NewTesoQLEcho (env : Env Config TesoQL) (cfg : Config)
    (customErrorFn : List (ErrorFunc S)) : TesoQLEcho Config TesoQL S :=
  let tesoQL := env.NewTesoQL cfg
  let customErrorFunc : ErrorFunc S :=
    if h : customErrorFn.length > 0 then customErrorFn.get ⟨0, h⟩ else NewHTTPError
  { tesoQL := tesoQL, cfg := cfg, customErrorFunc := customErrorFunc }

/-- The call `c.Bind(&jsonMap)`. -/
def callBind (env : Env Config TesoQL) (w : World Config TesoQL S) :
    Except String JsonMap × World Config TesoQL S :=
  (env.Bind w.ctx.request, { w with calls := w.calls ++ [Call.bind] })

/-- The call `jsonMap.Validate(te.cfg)`. -/
def callValidate (env : Env Config TesoQL) (jsonMap : JsonMap) (cfg : Config)
    (w : World Config TesoQL S) : Option ErrorModel × World Config TesoQL S :=
  (env.Validate jsonMap cfg, { w with calls := w.calls ++ [Call.validate jsonMap] })

/-- The call `service.Get(&jsonMap)`. -/
def callGet (env : Env Config TesoQL) (tesoQL : TesoQL) (jsonMap : JsonMap)
    (w : World Config TesoQL S) :
    (List JsonMap × Int × Int × Option ErrorModel) × World Config TesoQL S :=
  (env.Get tesoQL jsonMap, { w with calls := w.calls ++ [Call.get jsonMap] })

/-- The call `te.customErrorFunc(c, errCode, key, msg, tesoQlCode)`. -/
def callErrorFunc (f : ErrorFunc S) (errCode : Int) (key : String) (msg : String)
    (tesoQlCode : Int) (w : World Config TesoQL S) : GoError × World Config TesoQL S :=
  let r := f w.vars w.ctx errCode key msg tesoQlCode
  (r.1,
   { w with
     vars := r.2.2
     ctx := r.2.1
     calls := w.calls ++ [Call.errorFunc errCode key msg tesoQlCode] })

/-- The handler's own call `c.JSON(code, resp)`. -/
def callJSON (code : Int) (resp : GenericResponseModel) (w : World Config TesoQL S) :
    GoError × World Config TesoQL S :=
  let r := w.ctx.JSON code (Body.response resp)
  (r.1, { w with ctx := r.2, calls := w.calls ++ [Call.json code resp] })

/-- The method `TesoQLHandler` of `handler.go`. -/
def TesoQLHandler (env : Env Config TesoQL) (w : World Config TesoQL S) :
    GoError × World Config TesoQL S :=
  let te := w.adapter
  let (err, w) := callBind env w
  match err with
  | Except.error _ =>
    callErrorFunc te.customErrorFunc
      StatusBadRequest
      env.BINDING_ERR
      "Error encountered while binding the request payload!"
      env.BINDING_ERR_CODE w
  | Except.ok jsonMap =>
    let (validationErr, w) := callValidate env jsonMap te.cfg w
    match validationErr with
    | some validationErr =>
      callErrorFunc te.customErrorFunc
        (validationErr.ErrorCode.tdiv 1000)
        validationErr.ErrorType
        validationErr.ErrorMsg
        validationErr.ErrorCode w
    | none =>
      let ((data, totalCount, length, serviceErr), w) := callGet env te.tesoQL jsonMap w
      match serviceErr with
      | some serviceErr =>
        callErrorFunc te.customErrorFunc
          (serviceErr.ErrorCode.tdiv 1000)
          serviceErr.ErrorType
          serviceErr.ErrorMsg
          serviceErr.ErrorCode w
      | none =>
        let resp := newTesoQlResponseModel totalCount length data
        callJSON StatusOK resp w

/-- The calls made while handling one request: what the handler adds to the record. -/
def newCalls (env : Env Config TesoQL) (w : World Config TesoQL S) : List Call :=
  (TesoQLHandler env w).2.calls.drop w.calls.length

/-- An error function without variables of its own, as a func value over any variables:
it leaves them as they are. -/
def ofPure (f : TesoqlEcho.ErrorFunc) : ErrorFunc S :=
  fun s c errCode key msg tesoQlCode =>
    ((f c errCode key msg tesoQlCode).1, (f c errCode key msg tesoQlCode).2, s)

end Handler

end Stateful

/-! ## Sample collaborators and requests -/

/-- A query descriptor: the body of the request with a filter on age. -/
def demoQuery : JsonMap :=
  [("filter", JsonValue.object [("age__gt", JsonValue.number 18 0)])]

/-- One result row. -/
def demoRow : JsonMap :=
  [("name", JsonValue.string "Ada"), ("age", JsonValue.number 36 0)]

/-- Collaborators that answer every call with the given outcomes. -/
def demoEnv (bound : Except String JsonMap) (validation : Option ErrorModel)
    (result : List JsonMap × Int × Int × Option ErrorModel) : Env Unit Unit :=
  { BINDING_ERR := "BINDING_ERR"
    BINDING_ERR_CODE := 400000
    Bind := fun _ => bound
    NewTesoQL := fun _ => ()
    Validate := fun _ _ => validation
    Get := fun _ _ => result }

/-- A context on which nothing has been written yet. -/
def demoContext : Context :=
  { request := { body := "not-json" }, responses := [] }

/-- A request about to be handled by an adapter holding the error function f. -/
def demoWorld (f : ErrorFunc) : World Unit Unit :=
  { adapter := { tesoQL := (), cfg := (), customErrorFunc := f }
    ctx := demoContext
    calls := [] }

/-- An error function that writes nothing to the context and returns nil. -/
def silentPolicy : ErrorFunc :=
  fun c _ _ _ _ => (none, c)

/-- A validation error with a code below 1000. -/
def lowCodeError : ErrorModel :=
  { ErrorCode := 999, ErrorType := "LOW", ErrorMsg := "code below one thousand" }

/-- A structured error whose code carries the status 422. -/
def demoError : ErrorModel :=
  { ErrorCode := 422007, ErrorType := "INVALID_FIELD", ErrorMsg := "unknown field" }

/-- An error function that counts its calls in a variable n it closes over: the Go closure
that does n++ and then writes the error envelope with status 400 + n. -/
def countingPolicy : Stateful.ErrorFunc Int :=
  fun n c _ key msg tesoQlCode =>
    let r := c.JSON (400 + (n + 1))
      (Body.error
        { Code := 400 + (n + 1), Key := key, Message := msg, TesoQlErrCode := tesoQlCode })
    (r.1, r.2, n + 1)

/-- Collaborators for which no body binds. -/
def rejectingEnv : Env Unit Unit :=
  demoEnv (Except.error "bad json") none ([], 0, 0, none)

/-- The first request to an adapter built with the counting error function, its counter
at 0. -/
def countingFirst : Stateful.World Unit Unit Int :=
  { adapter := Stateful.NewTesoQLEcho rejectingEnv () [countingPolicy]
    vars := 0
    ctx := demoContext
    calls := [] }

/-- The same request sent again: the adapter and the counter are those the first run left,
the context is fresh. -/
def countingSecond : Stateful.World Unit Unit Int :=
  { adapter := (Stateful.TesoQLHandler rejectingEnv countingFirst).2.adapter
    vars := (Stateful.TesoQLHandler rejectingEnv countingFirst).2.vars
    ctx := demoContext
    calls := [] }

/-- A request to an adapter built without an error function, the variables holding n. -/
def defaultWorldAt (n : Int) : Stateful.World Unit Unit Int :=
  { adapter := Stateful.NewTesoQLEcho
      (demoEnv (Except.ok demoQuery) (some demoError) ([], 0, 0, none)) () []
    vars := n
    ctx := demoContext
    calls := [] }

/-! ## The four branches of the handler -/

section Branches

variable {Config TesoQL : Type}

theorem handler_bind_error (env : Env Config TesoQL) (w : World Config TesoQL) (e : String)
    (h : env.Bind w.ctx.request = Except.error e) :
    TesoQLHandler env w =
      callErrorFunc w.adapter.customErrorFunc StatusBadRequest env.BINDING_ERR
        "Error encountered while binding the request payload!" env.BINDING_ERR_CODE
        { w with calls := w.calls ++ [Call.bind] } := by
  simp [TesoQLHandler, callBind, h]

theorem handler_validation_error (env : Env Config TesoQL) (w : World Config TesoQL)
    (q : JsonMap) (e : ErrorModel)
    (hb : env.Bind w.ctx.request = Except.ok q)
    (hv : env.Validate q w.adapter.cfg = some e) :
    TesoQLHandler env w =
      callErrorFunc w.adapter.customErrorFunc (e.ErrorCode.tdiv 1000) e.ErrorType e.ErrorMsg
        e.ErrorCode { w with calls := w.calls ++ [Call.bind, Call.validate q] } := by
  simp [TesoQLHandler, callBind, callValidate, hb, hv]

theorem handler_service_error (env : Env Config TesoQL) (w : World Config TesoQL)
    (q : JsonMap) (data : List JsonMap) (totalCount length : Int) (e : ErrorModel)
    (hb : env.Bind w.ctx.request = Except.ok q)
    (hv : env.Validate q w.adapter.cfg = none)
    (hg : env.Get w.adapter.tesoQL q = (data, totalCount, length, some e)) :
    TesoQLHandler env w =
      callErrorFunc w.adapter.customErrorFunc (e.ErrorCode.tdiv 1000) e.ErrorType e.ErrorMsg
        e.ErrorCode
        { w with calls := w.calls ++ [Call.bind, Call.validate q, Call.get q] } := by
  simp [TesoQLHandler, callBind, callValidate, callGet, hb, hv, hg]

theorem handler_success (env : Env Config TesoQL) (w : World Config TesoQL)
    (q : JsonMap) (data : List JsonMap) (totalCount length : Int)
    (hb : env.Bind w.ctx.request = Except.ok q)
    (hv : env.Validate q w.adapter.cfg = none)
    (hg : env.Get w.adapter.tesoQL q = (data, totalCount, length, none)) :
    TesoQLHandler env w =
      callJSON StatusOK (newTesoQlResponseModel totalCount length data)
        { w with calls := w.calls ++ [Call.bind, Call.validate q, Call.get q] } := by
  simp [TesoQLHandler, callBind, callValidate, callGet, hb, hv, hg]

/-- Truncating division by 1000 sends every code strictly between -1000 and 1000 to 0. -/
theorem tdiv_thousand_eq_zero (E : Int) (h1 : -1000 < E) (h2 : E < 1000) :
    E.tdiv 1000 = 0 := by
  rcases Int.le_total 0 E with h | h
  · exact Int.tdiv_eq_zero_of_lt h h2
  · have h3 : (-E).tdiv 1000 = 0 := Int.tdiv_eq_zero_of_lt (by omega) (by omega)
    have h4 : (-E).tdiv 1000 = -(E.tdiv 1000) := Int.neg_tdiv E 1000
    omega

theorem newCalls_bind_error (env : Env Config TesoQL) (w : World Config TesoQL) (e : String)
    (h : env.Bind w.ctx.request = Except.error e) :
    newCalls env w =
      [Call.bind,
       Call.errorFunc 400 env.BINDING_ERR
         "Error encountered while binding the request payload!" env.BINDING_ERR_CODE] := by
  simp [newCalls, handler_bind_error env w e h, callErrorFunc, StatusBadRequest]

theorem newCalls_validation_error (env : Env Config TesoQL) (w : World Config TesoQL)
    (q : JsonMap) (e : ErrorModel)
    (hb : env.Bind w.ctx.request = Except.ok q)
    (hv : env.Validate q w.adapter.cfg = some e) :
    newCalls env w =
      [Call.bind, Call.validate q,
       Call.errorFunc (e.ErrorCode.tdiv 1000) e.ErrorType e.ErrorMsg e.ErrorCode] := by
  simp [newCalls, handler_validation_error env w q e hb hv, callErrorFunc]

theorem newCalls_service_error (env : Env Config TesoQL) (w : World Config TesoQL)
    (q : JsonMap) (data : List JsonMap) (totalCount length : Int) (e : ErrorModel)
    (hb : env.Bind w.ctx.request = Except.ok q)
    (hv : env.Validate q w.adapter.cfg = none)
    (hg : env.Get w.adapter.tesoQL q = (data, totalCount, length, some e)) :
    newCalls env w =
      [Call.bind, Call.validate q, Call.get q,
       Call.errorFunc (e.ErrorCode.tdiv 1000) e.ErrorType e.ErrorMsg e.ErrorCode] := by
  simp [newCalls, handler_service_error env w q data totalCount length e hb hv hg,
    callErrorFunc]

theorem newCalls_success (env : Env Config TesoQL) (w : World Config TesoQL)
    (q : JsonMap) (data : List JsonMap) (totalCount length : Int)
    (hb : env.Bind w.ctx.request = Except.ok q)
    (hv : env.Validate q w.adapter.cfg = none)
    (hg : env.Get w.adapter.tesoQL q = (data, totalCount, length, none)) :
    newCalls env w =
      [Call.bind, Call.validate q, Call.get q,
       Call.json 200 { Size := length, TotalCount := totalCount, Data := data }] := by
  simp [newCalls, handler_success env w q data totalCount length hb hv hg, callJSON,
    StatusOK, newTesoQlResponseModel]

/-- The handler never writes to the adapter behind its receiver. -/
theorem handler_adapter (env : Env Config TesoQL) (w : World Config TesoQL) :
    (TesoQLHandler env w).2.adapter = w.adapter := by
  rcases hb : env.Bind w.ctx.request with e | q
  · rw [handler_bind_error env w e hb]; rfl
  · rcases hv : env.Validate q w.adapter.cfg with _ | e
    · rcases hg : env.Get w.adapter.tesoQL q with ⟨data, totalCount, length, se⟩
      rcases se with _ | e
      · rw [handler_success env w q data totalCount length hb hv hg]; rfl
      · rw [handler_service_error env w q data totalCount length e hb hv hg]; rfl
    · rw [handler_validation_error env w q e hb hv]; rfl

end Branches

/-! ## The four branches of the handler, for an error function with variables -/

section StatefulBranches

variable {Config TesoQL S : Type}

theorem stateful_handler_bind_error (env : Env Config TesoQL)
    (w : Stateful.World Config TesoQL S) (e : String)
    (h : env.Bind w.ctx.request = Except.error e) :
    Stateful.TesoQLHandler env w =
      Stateful.callErrorFunc w.adapter.customErrorFunc StatusBadRequest env.BINDING_ERR
        "Error encountered while binding the request payload!" env.BINDING_ERR_CODE
        { w with calls := w.calls ++ [Call.bind] } := by
  simp [Stateful.TesoQLHandler, Stateful.callBind, h]

theorem stateful_handler_validation_error (env : Env Config TesoQL)
    (w : Stateful.World Config TesoQL S) (q : JsonMap) (e : ErrorModel)
    (hb : env.Bind w.ctx.request = Except.ok q)
    (hv : env.Validate q w.adapter.cfg = some e) :
    Stateful.TesoQLHandler env w =
      Stateful.callErrorFunc w.adapter.customErrorFunc (e.ErrorCode.tdiv 1000) e.ErrorType
        e.ErrorMsg e.ErrorCode
        { w with calls := w.calls ++ [Call.bind, Call.validate q] } := by
  simp [Stateful.TesoQLHandler, Stateful.callBind, Stateful.callValidate, hb, hv]

theorem stateful_handler_service_error (env : Env Config TesoQL)
    (w : Stateful.World Config TesoQL S) (q : JsonMap) (data : List JsonMap)
    (totalCount length : Int) (e : ErrorModel)
    (hb : env.Bind w.ctx.request = Except.ok q)
    (hv : env.Validate q w.adapter.cfg = none)
    (hg : env.Get w.adapter.tesoQL q = (data, totalCount, length, some e)) :
    Stateful.TesoQLHandler env w =
      Stateful.callErrorFunc w.adapter.customErrorFunc (e.ErrorCode.tdiv 1000) e.ErrorType
        e.ErrorMsg e.ErrorCode
        { w with calls := w.calls ++ [Call.bind, Call.validate q, Call.get q] } := by
  simp [Stateful.TesoQLHandler, Stateful.callBind, Stateful.callValidate, Stateful.callGet,
    hb, hv, hg]

theorem stateful_handler_success (env : Env Config TesoQL)
    (w : Stateful.World Config TesoQL S) (q : JsonMap) (data : List JsonMap)
    (totalCount length : Int)
    (hb : env.Bind w.ctx.request = Except.ok q)
    (hv : env.Validate q w.adapter.cfg = none)
    (hg : env.Get w.adapter.tesoQL q = (data, totalCount, length, none)) :
    Stateful.TesoQLHandler env w =
      Stateful.callJSON StatusOK (newTesoQlResponseModel totalCount length data)
        { w with calls := w.calls ++ [Call.bind, Call.validate q, Call.get q] } := by
  simp [Stateful.TesoQLHandler, Stateful.callBind, Stateful.callValidate, Stateful.callGet,
    hb, hv, hg]

/-- Two runs on the same adapter and context whose collaborators answer alike take the same
branch: both end in the same call of the error function, or both in the same transmission. -/
theorem stateful_runs_take_same_branch (env1 env2 : Env Config TesoQL)
    (w1 w2 : Stateful.World Config TesoQL S)
    (ha : w1.adapter = w2.adapter)
    (hx : w1.ctx = w2.ctx)
    (hk : env1.BINDING_ERR = env2.BINDING_ERR)
    (hc : env1.BINDING_ERR_CODE = env2.BINDING_ERR_CODE)
    (hb : env1.Bind w1.ctx.request = env2.Bind w1.ctx.request)
    (hv : ∀ q, env1.Bind w1.ctx.request = Except.ok q →
      env1.Validate q w1.adapter.cfg = env2.Validate q w1.adapter.cfg)
    (hg : ∀ q, env1.Bind w1.ctx.request = Except.ok q →
      env1.Validate q w1.adapter.cfg = none →
      env1.Get w1.adapter.tesoQL q = env2.Get w1.adapter.tesoQL q) :
    (∃ (a : Int) (k m : String) (t : Int) (pre : List Call),
        Stateful.TesoQLHandler env1 w1 =
            Stateful.callErrorFunc w1.adapter.customErrorFunc a k m t
              { w1 with calls := w1.calls ++ pre }
          ∧ Stateful.TesoQLHandler env2 w2 =
            Stateful.callErrorFunc w2.adapter.customErrorFunc a k m t
              { w2 with calls := w2.calls ++ pre }
          ∧ pre.countP Call.isErrorFunc = 0)
      ∨ (∃ (resp : GenericResponseModel) (pre : List Call),
        Stateful.TesoQLHandler env1 w1 =
            Stateful.callJSON StatusOK resp { w1 with calls := w1.calls ++ pre }
          ∧ Stateful.TesoQLHandler env2 w2 =
            Stateful.callJSON StatusOK resp { w2 with calls := w2.calls ++ pre }
          ∧ pre.countP Call.isErrorFunc = 0) := by
  rcases hb1 : env1.Bind w1.ctx.request with e | q
  · have hb2 : env2.Bind w2.ctx.request = Except.error e := by rw [← hx, ← hb]; exact hb1
    have h2 := stateful_handler_bind_error env2 w2 e hb2
    rw [← hk, ← hc] at h2
    exact Or.inl ⟨_, _, _, _, _, stateful_handler_bind_error env1 w1 e hb1, h2, rfl⟩
  · have hb2 : env2.Bind w2.ctx.request = Except.ok q := by rw [← hx, ← hb]; exact hb1
    rcases hv1 : env1.Validate q w1.adapter.cfg with _ | e
    · have hv2 : env2.Validate q w2.adapter.cfg = none := by
        rw [← ha, ← hv q hb1]; exact hv1
      rcases hg1 : env1.Get w1.adapter.tesoQL q with ⟨data, totalCount, length, se⟩
      have hg2 : env2.Get w2.adapter.tesoQL q = (data, totalCount, length, se) := by
        rw [← ha, ← hg q hb1 hv1]; exact hg1
      rcases se with _ | e
      · exact Or.inr ⟨_, _,
          stateful_handler_success env1 w1 q data totalCount length hb1 hv1 hg1,
          stateful_handler_success env2 w2 q data totalCount length hb2 hv2 hg2, rfl⟩
      · exact Or.inl ⟨_, _, _, _, _,
          stateful_handler_service_error env1 w1 q data totalCount length e hb1 hv1 hg1,
          stateful_handler_service_error env2 w2 q data totalCount length e hb2 hv2 hg2,
          rfl⟩
    · have hv2 : env2.Validate q w2.adapter.cfg = some e := by
        rw [← ha, ← hv q hb1]; exact hv1
      exact Or.inl ⟨_, _, _, _, _, stateful_handler_validation_error env1 w1 q e hb1 hv1,
        stateful_handler_validation_error env2 w2 q e hb2 hv2, rfl⟩

/-- The two embeddings agree: with an error function that has no variables of its own, the
handler returns, writes and calls the same in both, and leaves the variables as they were. -/
theorem stateful_handler_of_pure (env : Env Config TesoQL) (f : ErrorFunc) (tesoQL : TesoQL)
    (cfg : Config) (s : S) (c : Context) (calls : List Call) :
    (Stateful.TesoQLHandler env
        { adapter := { tesoQL := tesoQL, cfg := cfg, customErrorFunc := Stateful.ofPure f }
          vars := s, ctx := c, calls := calls }).1 =
        (TesoQLHandler env
          { adapter := { tesoQL := tesoQL, cfg := cfg, customErrorFunc := f }
            ctx := c, calls := calls }).1
      ∧ (Stateful.TesoQLHandler env
          { adapter := { tesoQL := tesoQL, cfg := cfg, customErrorFunc := Stateful.ofPure f }
            vars := s, ctx := c, calls := calls }).2.ctx =
        (TesoQLHandler env
          { adapter := { tesoQL := tesoQL, cfg := cfg, customErrorFunc := f }
            ctx := c, calls := calls }).2.ctx
      ∧ (Stateful.TesoQLHandler env
          { adapter := { tesoQL := tesoQL, cfg := cfg, customErrorFunc := Stateful.ofPure f }
            vars := s, ctx := c, calls := calls }).2.calls =
        (TesoQLHandler env
          { adapter := { tesoQL := tesoQL, cfg := cfg, customErrorFunc := f }
            ctx := c, calls := calls }).2.calls
      ∧ (Stateful.TesoQLHandler env
          { adapter := { tesoQL := tesoQL, cfg := cfg, customErrorFunc := Stateful.ofPure f }
            vars := s, ctx := c, calls := calls }).2.vars = s := by
  rcases hb : env.Bind c.request with e | q
  · rw [stateful_handler_bind_error env _ e hb, handler_bind_error env _ e hb]
    exact ⟨rfl, rfl, rfl, rfl⟩
  · rcases hv : env.Validate q cfg with _ | e
    · rcases hg : env.Get tesoQL q with ⟨data, totalCount, length, se⟩
      rcases se with _ | e
      · rw [stateful_handler_success env _ q data totalCount length hb hv hg,
          handler_success env _ q data totalCount length hb hv hg]
        exact ⟨rfl, rfl, rfl, rfl⟩
      · rw [stateful_handler_service_error env _ q data totalCount length e hb hv hg,
          handler_service_error env _ q data totalCount length e hb hv hg]
        exact ⟨rfl, rfl, rfl, rfl⟩
    · rw [stateful_handler_validation_error env _ q e hb hv,
        handler_validation_error env _ q e hb hv]
      exact ⟨rfl, rfl, rfl, rfl⟩

end StatefulBranches

/-! ## The request handler, branch by branch -/

section Claims

variable {Config TesoQL : Type}

/-- C1: when the body fails to bind, the handler calls the error function exactly once, with
status 400, the key BINDING_ERR, the fixed message and BINDING_ERR_CODE, returns what that
call returns, and calls neither the validator nor the execution service. -/
theorem binding_error_invokes_policy_once (env : Env Config TesoQL) (w : World Config TesoQL)
    (e : String) (h : env.Bind w.ctx.request = Except.error e) :
    newCalls env w =
        [Call.bind,
         Call.errorFunc 400 env.BINDING_ERR
           "Error encountered while binding the request payload!" env.BINDING_ERR_CODE]
      ∧ (newCalls env w).countP Call.isErrorFunc = 1
      ∧ (newCalls env w).countP Call.isValidate = 0
      ∧ (newCalls env w).countP Call.isGet = 0
      ∧ (TesoQLHandler env w).1 =
          (w.adapter.customErrorFunc w.ctx 400 env.BINDING_ERR
            "Error encountered while binding the request payload!" env.BINDING_ERR_CODE).1
      ∧ (TesoQLHandler env w).2.ctx =
          (w.adapter.customErrorFunc w.ctx 400 env.BINDING_ERR
            "Error encountered while binding the request payload!" env.BINDING_ERR_CODE).2 := by
  have hc : newCalls env w =
      [Call.bind,
       Call.errorFunc 400 env.BINDING_ERR
         "Error encountered while binding the request payload!" env.BINDING_ERR_CODE] := by
    simp [newCalls, handler_bind_error env w e h, callErrorFunc, StatusBadRequest]
  refine ⟨hc, ?_, ?_, ?_, ?_, ?_⟩
  · rw [hc]; rfl
  · rw [hc]; rfl
  · rw [hc]; rfl
  · rw [handler_bind_error env w e h]; rfl
  · rw [handler_bind_error env w e h]; rfl

/-- Witness for C1: a body that does not bind, handled by the default error function. -/
theorem binding_error_invokes_policy_once_witness :
    newCalls (demoEnv (Except.error "bad json") none ([], 0, 0, none)) (demoWorld NewHTTPError) =
        [Call.bind,
         Call.errorFunc 400 "BINDING_ERR"
           "Error encountered while binding the request payload!" 400000] :=
  (binding_error_invokes_policy_once
    (demoEnv (Except.error "bad json") none ([], 0, 0, none)) (demoWorld NewHTTPError)
    "bad json" rfl).1

/-- C2: when the body binds and validation returns an error with code E, type K and message
M, the handler under the default error function writes exactly one response, with status
E / 1000 and the error envelope (E / 1000, K, M, E), and never calls the execution service. -/
theorem validation_error_default_envelope (env : Env Config TesoQL) (w : World Config TesoQL)
    (q : JsonMap) (E : Int) (K M : String)
    (hd : w.adapter.customErrorFunc = NewHTTPError)
    (hb : env.Bind w.ctx.request = Except.ok q)
    (hv : env.Validate q w.adapter.cfg =
      some { ErrorCode := E, ErrorType := K, ErrorMsg := M }) :
    (TesoQLHandler env w).2.ctx.responses =
        w.ctx.responses ++
          [{ status := E.tdiv 1000
             body := Body.error
               { Code := E.tdiv 1000, Key := K, Message := M, TesoQlErrCode := E } }]
      ∧ (TesoQLHandler env w).1 = none
      ∧ newCalls env w =
          [Call.bind, Call.validate q, Call.errorFunc (E.tdiv 1000) K M E]
      ∧ (newCalls env w).countP Call.isGet = 0 := by
  have hr := handler_validation_error env w q _ hb hv
  have hc : newCalls env w =
      [Call.bind, Call.validate q, Call.errorFunc (E.tdiv 1000) K M E] := by
    simp [newCalls, hr, callErrorFunc]
  refine ⟨?_, ?_, hc, ?_⟩
  · rw [hr, hd]; rfl
  · rw [hr, hd]; rfl
  · rw [hc]; rfl

/-- Witness for C2: a validation error with code 422007 gives status 422. -/
theorem validation_error_default_envelope_witness :
    (TesoQLHandler (demoEnv (Except.ok demoQuery) (some demoError) ([], 0, 0, none))
        (demoWorld NewHTTPError)).2.ctx.responses =
      [{ status := 422
         body := Body.error
           { Code := 422, Key := "INVALID_FIELD", Message := "unknown field",
             TesoQlErrCode := 422007 } }] :=
  (validation_error_default_envelope
    (demoEnv (Except.ok demoQuery) (some demoError) ([], 0, 0, none))
    (demoWorld NewHTTPError) demoQuery 422007 "INVALID_FIELD" "unknown field"
    rfl rfl rfl).1

/-- C3: when the body binds, validation passes and the execution service returns an error
with code E, type K and message M, the handler calls the error function with exactly
(E / 1000, K, M, E), its outcome is the outcome of that call, and it transmits no success
response of its own. -/
theorem execution_error_invokes_policy (env : Env Config TesoQL) (w : World Config TesoQL)
    (q : JsonMap) (data : List JsonMap) (totalCount length : Int) (E : Int) (K M : String)
    (hb : env.Bind w.ctx.request = Except.ok q)
    (hv : env.Validate q w.adapter.cfg = none)
    (hg : env.Get w.adapter.tesoQL q =
      (data, totalCount, length, some { ErrorCode := E, ErrorType := K, ErrorMsg := M })) :
    newCalls env w =
        [Call.bind, Call.validate q, Call.get q, Call.errorFunc (E.tdiv 1000) K M E]
      ∧ (newCalls env w).countP Call.isErrorFunc = 1
      ∧ (newCalls env w).countP Call.isJson = 0
      ∧ (TesoQLHandler env w).1 = (w.adapter.customErrorFunc w.ctx (E.tdiv 1000) K M E).1
      ∧ (TesoQLHandler env w).2.ctx =
          (w.adapter.customErrorFunc w.ctx (E.tdiv 1000) K M E).2 := by
  have hr := handler_service_error env w q data totalCount length _ hb hv hg
  have hc : newCalls env w =
      [Call.bind, Call.validate q, Call.get q, Call.errorFunc (E.tdiv 1000) K M E] := by
    simp [newCalls, hr, callErrorFunc]
  refine ⟨hc, ?_, ?_, ?_, ?_⟩
  · rw [hc]; rfl
  · rw [hc]; rfl
  · rw [hr]; rfl
  · rw [hr]; rfl

/-- Witness for C3: an execution error with code 422007 reaches the error function as
(422, INVALID_FIELD, unknown field, 422007). -/
theorem execution_error_invokes_policy_witness :
    newCalls (demoEnv (Except.ok demoQuery) none ([], 0, 0, some demoError))
        (demoWorld silentPolicy) =
      [Call.bind, Call.validate demoQuery, Call.get demoQuery,
       Call.errorFunc 422 "INVALID_FIELD" "unknown field" 422007] :=
  (execution_error_invokes_policy
    (demoEnv (Except.ok demoQuery) none ([], 0, 0, some demoError))
    (demoWorld silentPolicy) demoQuery [] 0 0 422007 "INVALID_FIELD" "unknown field"
    rfl rfl rfl).1

/-- C4: when the body binds, validation passes and the execution service returns rows R,
total count T and length L without an error, the handler writes exactly one response, with
status 200 and the envelope size = L, totalCount = T, data = R, and never calls the error
function. -/
theorem success_envelope (env : Env Config TesoQL) (w : World Config TesoQL)
    (q : JsonMap) (R : List JsonMap) (T L : Int)
    (hb : env.Bind w.ctx.request = Except.ok q)
    (hv : env.Validate q w.adapter.cfg = none)
    (hg : env.Get w.adapter.tesoQL q = (R, T, L, none)) :
    (TesoQLHandler env w).2.ctx.responses =
        w.ctx.responses ++
          [{ status := 200
             body := Body.response { Size := L, TotalCount := T, Data := R } }]
      ∧ (TesoQLHandler env w).1 = none
      ∧ newCalls env w =
          [Call.bind, Call.validate q, Call.get q,
           Call.json 200 { Size := L, TotalCount := T, Data := R }]
      ∧ (newCalls env w).countP Call.isErrorFunc = 0 := by
  have hr := handler_success env w q R T L hb hv hg
  have hc : newCalls env w =
      [Call.bind, Call.validate q, Call.get q,
       Call.json 200 { Size := L, TotalCount := T, Data := R }] := by
    simp [newCalls, hr, callJSON, StatusOK, newTesoQlResponseModel]
  refine ⟨?_, ?_, hc, ?_⟩
  · rw [hr]; rfl
  · rw [hr]; rfl
  · rw [hc]; rfl

/-- Witness for C4: one row out of seven matching gives size 1 and totalCount 7. -/
theorem success_envelope_witness :
    (TesoQLHandler (demoEnv (Except.ok demoQuery) none ([demoRow], 7, 1, none))
        (demoWorld silentPolicy)).2.ctx.responses =
      [{ status := 200
         body := Body.response { Size := 1, TotalCount := 7, Data := [demoRow] } }] :=
  (success_envelope (demoEnv (Except.ok demoQuery) none ([demoRow], 7, 1, none))
    (demoWorld silentPolicy) demoQuery [demoRow] 7 1 rfl rfl rfl).1

/-- C5, counterexample: an adapter built with an error function that writes nothing, given
a body that does not bind, ends the request with no envelope at all. -/
theorem silent_policy_produces_no_envelope :
    newResponses (demoEnv (Except.error "bad json") none ([], 0, 0, none))
        { adapter := NewTesoQLEcho (demoEnv (Except.error "bad json") none ([], 0, 0, none))
            () [silentPolicy]
          ctx := demoContext
          calls := [] } = []
      ∧ (TesoQLHandler (demoEnv (Except.error "bad json") none ([], 0, 0, none))
          { adapter := NewTesoQLEcho (demoEnv (Except.error "bad json") none ([], 0, 0, none))
              () [silentPolicy]
            ctx := demoContext
            calls := [] }).2.ctx.responses.length = 0 :=
  ⟨rfl, rfl⟩

/-- C5, amended: every request ends in exactly one terminal action, either one call of the
error function or one transmission of a response model, never both and never neither; and
when the adapter holds the default error function exactly one envelope is written, which is
either a response envelope with status 200 or an error envelope carrying its own status. -/
theorem exactly_one_terminal_action (env : Env Config TesoQL) (w : World Config TesoQL) :
    (newCalls env w).countP Call.isErrorFunc + (newCalls env w).countP Call.isJson = 1
      ∧ (w.adapter.customErrorFunc = NewHTTPError →
          ∃ r, (TesoQLHandler env w).2.ctx.responses = w.ctx.responses ++ [r]
            ∧ newResponses env w = [r]
            ∧ ((∃ m, r = { status := 200, body := Body.response m })
                ∨ (∃ e, r = { status := e.Code, body := Body.error e }))) := by
  rcases hb : env.Bind w.ctx.request with e | q
  · refine ⟨by rw [newCalls_bind_error env w e hb]; rfl, fun hd => ?_⟩
    refine ⟨{ status := 400
              body := Body.error
                { Code := 400, Key := env.BINDING_ERR
                  Message := "Error encountered while binding the request payload!"
                  TesoQlErrCode := env.BINDING_ERR_CODE } }, ?_, ?_,
      Or.inr ⟨⟨400, env.BINDING_ERR, "Error encountered while binding the request payload!",
        env.BINDING_ERR_CODE⟩, rfl⟩⟩
    · rw [handler_bind_error env w e hb, hd]; rfl
    · simp [newResponses, handler_bind_error env w e hb, hd, callErrorFunc, NewHTTPError,
        Context.JSON, StatusBadRequest]
  · rcases hv : env.Validate q w.adapter.cfg with _ | e
    · rcases hg : env.Get w.adapter.tesoQL q with ⟨data, totalCount, length, se⟩
      rcases se with _ | e
      · refine ⟨by rw [newCalls_success env w q data totalCount length hb hv hg]; rfl,
          fun _ => ?_⟩
        refine ⟨{ status := 200
                  body := Body.response
                    { Size := length, TotalCount := totalCount, Data := data } },
          ?_, ?_, Or.inl ⟨_, rfl⟩⟩
        · rw [handler_success env w q data totalCount length hb hv hg]; rfl
        · simp [newResponses, handler_success env w q data totalCount length hb hv hg,
            callJSON, Context.JSON, StatusOK, newTesoQlResponseModel]
      · refine ⟨by rw [newCalls_service_error env w q data totalCount length e hb hv hg]; rfl,
          fun hd => ?_⟩
        refine ⟨{ status := e.ErrorCode.tdiv 1000
                  body := Body.error
                    { Code := e.ErrorCode.tdiv 1000, Key := e.ErrorType
                      Message := e.ErrorMsg, TesoQlErrCode := e.ErrorCode } },
          ?_, ?_,
          Or.inr ⟨⟨e.ErrorCode.tdiv 1000, e.ErrorType, e.ErrorMsg, e.ErrorCode⟩, rfl⟩⟩
        · rw [handler_service_error env w q data totalCount length e hb hv hg, hd]; rfl
        · simp [newResponses, handler_service_error env w q data totalCount length e hb hv hg,
            hd, callErrorFunc, NewHTTPError, Context.JSON]
    · refine ⟨by rw [newCalls_validation_error env w q e hb hv]; rfl, fun hd => ?_⟩
      refine ⟨{ status := e.ErrorCode.tdiv 1000
                body := Body.error
                  { Code := e.ErrorCode.tdiv 1000, Key := e.ErrorType
                    Message := e.ErrorMsg, TesoQlErrCode := e.ErrorCode } },
        ?_, ?_,
          Or.inr ⟨⟨e.ErrorCode.tdiv 1000, e.ErrorType, e.ErrorMsg, e.ErrorCode⟩, rfl⟩⟩
      · rw [handler_validation_error env w q e hb hv, hd]; rfl
      · simp [newResponses, handler_validation_error env w q e hb hv, hd, callErrorFunc,
          NewHTTPError, Context.JSON]

/-- Witness for C5: under the default error function a body that does not bind yields
exactly one envelope. -/
theorem exactly_one_terminal_action_witness :
    ∃ r, (TesoQLHandler (demoEnv (Except.error "bad json") none ([], 0, 0, none))
          (demoWorld NewHTTPError)).2.ctx.responses = demoContext.responses ++ [r]
      ∧ newResponses (demoEnv (Except.error "bad json") none ([], 0, 0, none))
          (demoWorld NewHTTPError) = [r]
      ∧ ((∃ m, r = { status := 200, body := Body.response m })
          ∨ (∃ e, r = { status := e.Code, body := Body.error e })) :=
  (exactly_one_terminal_action (demoEnv (Except.error "bad json") none ([], 0, 0, none))
    (demoWorld NewHTTPError)).2 rfl

/-- C6: for every custom error function f and every request, the adapter built with f makes
the same calls with the same arguments as the adapter built without one; and whenever the
default adapter calls NewHTTPError with (s, k, m, code), the adapter built with f calls f
exactly once, with those same four arguments, and the outcome of the request is the outcome
of that call. -/
theorem custom_policy_same_arguments (env : Env Config TesoQL) (cfg : Config) (f : ErrorFunc)
    (c : Context) (calls : List Call) :
    newCalls env { adapter := NewTesoQLEcho env cfg [f], ctx := c, calls := calls } =
        newCalls env { adapter := NewTesoQLEcho env cfg [], ctx := c, calls := calls }
      ∧ ∀ (s : Int) (k m : String) (code : Int),
          Call.errorFunc s k m code ∈
              newCalls env { adapter := NewTesoQLEcho env cfg [], ctx := c, calls := calls } →
            (newCalls env
                { adapter := NewTesoQLEcho env cfg [f], ctx := c, calls := calls }).countP
                Call.isErrorFunc = 1
            ∧ Call.errorFunc s k m code ∈
                newCalls env { adapter := NewTesoQLEcho env cfg [f], ctx := c, calls := calls }
            ∧ (TesoQLHandler env
                { adapter := NewTesoQLEcho env cfg [f], ctx := c, calls := calls }).1 =
                (f c s k m code).1
            ∧ (TesoQLHandler env
                { adapter := NewTesoQLEcho env cfg [f], ctx := c, calls := calls }).2.ctx =
                (f c s k m code).2
            ∧ (TesoQLHandler env
                { adapter := NewTesoQLEcho env cfg [], ctx := c, calls := calls }).1 =
                (NewHTTPError c s k m code).1
            ∧ (TesoQLHandler env
                { adapter := NewTesoQLEcho env cfg [], ctx := c, calls := calls }).2.ctx =
                (NewHTTPError c s k m code).2 := by
  generalize hwf : ({ adapter := NewTesoQLEcho env cfg [f], ctx := c, calls := calls } :
    World Config TesoQL) = wf
  generalize hwd : ({ adapter := NewTesoQLEcho env cfg [], ctx := c, calls := calls } :
    World Config TesoQL) = wd
  have hfc : wf.ctx = c := by rw [← hwf]
  have hdc : wd.ctx = c := by rw [← hwd]
  have hfp : wf.adapter.customErrorFunc = f := by rw [← hwf]; rfl
  have hdp : wd.adapter.customErrorFunc = NewHTTPError := by rw [← hwd]; rfl
  have hfg : wf.adapter.cfg = cfg := by rw [← hwf]; rfl
  have hdg : wd.adapter.cfg = cfg := by rw [← hwd]; rfl
  have hft : wf.adapter.tesoQL = env.NewTesoQL cfg := by rw [← hwf]; rfl
  have hdt : wd.adapter.tesoQL = env.NewTesoQL cfg := by rw [← hwd]; rfl
  rcases hb : env.Bind c.request with e | q
  · have hbf : env.Bind wf.ctx.request = Except.error e := by rw [hfc]; exact hb
    have hbd : env.Bind wd.ctx.request = Except.error e := by rw [hdc]; exact hb
    rw [newCalls_bind_error env wf e hbf, newCalls_bind_error env wd e hbd]
    refine ⟨rfl, ?_⟩
    intro s k m code hmem
    simp at hmem
    obtain ⟨rfl, rfl, rfl, rfl⟩ := hmem
    refine ⟨rfl, by simp, ?_, ?_, ?_, ?_⟩
    · rw [handler_bind_error env wf e hbf, ← hfp, ← hfc]; rfl
    · rw [handler_bind_error env wf e hbf, ← hfp, ← hfc]; rfl
    · rw [handler_bind_error env wd e hbd, ← hdp, ← hdc]; rfl
    · rw [handler_bind_error env wd e hbd, ← hdp, ← hdc]; rfl
  · have hbf : env.Bind wf.ctx.request = Except.ok q := by rw [hfc]; exact hb
    have hbd : env.Bind wd.ctx.request = Except.ok q := by rw [hdc]; exact hb
    rcases hv : env.Validate q cfg with _ | e
    · have hvf : env.Validate q wf.adapter.cfg = none := by rw [hfg]; exact hv
      have hvd : env.Validate q wd.adapter.cfg = none := by rw [hdg]; exact hv
      rcases hg : env.Get (env.NewTesoQL cfg) q with ⟨data, totalCount, length, se⟩
      rcases se with _ | e
      · have hgf : env.Get wf.adapter.tesoQL q = (data, totalCount, length, none) := by
          rw [hft]; exact hg
        have hgd : env.Get wd.adapter.tesoQL q = (data, totalCount, length, none) := by
          rw [hdt]; exact hg
        rw [newCalls_success env wf q data totalCount length hbf hvf hgf,
          newCalls_success env wd q data totalCount length hbd hvd hgd]
        refine ⟨rfl, ?_⟩
        intro s k m code hmem
        simp at hmem
      · have hgf : env.Get wf.adapter.tesoQL q = (data, totalCount, length, some e) := by
          rw [hft]; exact hg
        have hgd : env.Get wd.adapter.tesoQL q = (data, totalCount, length, some e) := by
          rw [hdt]; exact hg
        rw [newCalls_service_error env wf q data totalCount length e hbf hvf hgf,
          newCalls_service_error env wd q data totalCount length e hbd hvd hgd]
        refine ⟨rfl, ?_⟩
        intro s k m code hmem
        simp at hmem
        obtain ⟨rfl, rfl, rfl, rfl⟩ := hmem
        refine ⟨rfl, by simp, ?_, ?_, ?_, ?_⟩
        · rw [handler_service_error env wf q data totalCount length e hbf hvf hgf,
            ← hfp, ← hfc]; rfl
        · rw [handler_service_error env wf q data totalCount length e hbf hvf hgf,
            ← hfp, ← hfc]; rfl
        · rw [handler_service_error env wd q data totalCount length e hbd hvd hgd,
            ← hdp, ← hdc]; rfl
        · rw [handler_service_error env wd q data totalCount length e hbd hvd hgd,
            ← hdp, ← hdc]; rfl
    · have hvf : env.Validate q wf.adapter.cfg = some e := by rw [hfg]; exact hv
      have hvd : env.Validate q wd.adapter.cfg = some e := by rw [hdg]; exact hv
      rw [newCalls_validation_error env wf q e hbf hvf,
        newCalls_validation_error env wd q e hbd hvd]
      refine ⟨rfl, ?_⟩
      intro s k m code hmem
      simp at hmem
      obtain ⟨rfl, rfl, rfl, rfl⟩ := hmem
      refine ⟨rfl, by simp, ?_, ?_, ?_, ?_⟩
      · rw [handler_validation_error env wf q e hbf hvf, ← hfp, ← hfc]; rfl
      · rw [handler_validation_error env wf q e hbf hvf, ← hfp, ← hfc]; rfl
      · rw [handler_validation_error env wd q e hbd hvd, ← hdp, ← hdc]; rfl
      · rw [handler_validation_error env wd q e hbd hvd, ← hdp, ← hdc]; rfl

/-- Witness for C6: on a body that does not bind, the adapter built with the silent error
function calls it once with the arguments the default adapter gives to NewHTTPError. -/
theorem custom_policy_same_arguments_witness :
    Call.errorFunc 400 "BINDING_ERR" "Error encountered while binding the request payload!"
        400000 ∈
        newCalls (demoEnv (Except.error "bad json") none ([], 0, 0, none))
          { adapter := NewTesoQLEcho (demoEnv (Except.error "bad json") none ([], 0, 0, none))
              () []
            ctx := demoContext
            calls := [] }
      ∧ (TesoQLHandler (demoEnv (Except.error "bad json") none ([], 0, 0, none))
          { adapter := NewTesoQLEcho (demoEnv (Except.error "bad json") none ([], 0, 0, none))
              () [silentPolicy]
            ctx := demoContext
            calls := [] }).1 =
          (silentPolicy demoContext 400 "BINDING_ERR"
            "Error encountered while binding the request payload!" 400000).1 :=
  have hmem : Call.errorFunc 400 "BINDING_ERR"
      "Error encountered while binding the request payload!" 400000 ∈
      newCalls (demoEnv (Except.error "bad json") none ([], 0, 0, none))
        { adapter := NewTesoQLEcho (demoEnv (Except.error "bad json") none ([], 0, 0, none))
            () []
          ctx := demoContext
          calls := [] } :=
    List.mem_cons_of_mem _ (List.mem_cons_self _ _)
  ⟨hmem,
    ((custom_policy_same_arguments (demoEnv (Except.error "bad json") none ([], 0, 0, none))
      () silentPolicy demoContext []).2 400 "BINDING_ERR"
      "Error encountered while binding the request payload!" 400000 hmem).2.2.1⟩

/-- C7: without a supplied error function the adapter holds NewHTTPError; with one or more
supplied it holds the first; in both cases it holds the given configuration and the engine
built from it. -/
theorem constructor_selects_policy (env : Env Config TesoQL) (cfg : Config) :
    (NewTesoQLEcho env cfg []).customErrorFunc = NewHTTPError
      ∧ (∀ (f : ErrorFunc) (rest : List ErrorFunc),
          (NewTesoQLEcho env cfg (f :: rest)).customErrorFunc = f)
      ∧ ∀ fns : List ErrorFunc,
          (NewTesoQLEcho env cfg fns).cfg = cfg
            ∧ (NewTesoQLEcho env cfg fns).tesoQL = env.NewTesoQL cfg :=
  ⟨rfl, fun _ _ => by simp [NewTesoQLEcho], fun _ => ⟨rfl, rfl⟩⟩

/-- C8: for every status s, key k, message m and raw code c, NewHTTPError appends exactly one
response to those already written, with HTTP status s and the error envelope (s, k, m, c),
returns nil and leaves the request untouched; the code field of the envelope is the status
of the response that carries it. -/
theorem default_policy_envelope (ctx : Context) (s : Int) (k m : String) (c : Int) :
    (NewHTTPError ctx s k m c).2.responses =
        ctx.responses ++
          [{ status := s
             body := Body.error { Code := s, Key := k, Message := m, TesoQlErrCode := c } }]
      ∧ (NewHTTPError ctx s k m c).1 = none
      ∧ (NewHTTPError ctx s k m c).2.request = ctx.request
      ∧ ∀ r ∈ (NewHTTPError ctx s k m c).2.responses.drop ctx.responses.length,
          ∃ e : HttpError, r.body = Body.error e ∧ e.Code = r.status := by
  refine ⟨rfl, rfl, rfl, ?_⟩
  intro r hr
  have h : (NewHTTPError ctx s k m c).2.responses.drop ctx.responses.length =
      [{ status := s
         body := Body.error { Code := s, Key := k, Message := m, TesoQlErrCode := c } }] := by
    simp [NewHTTPError, Context.JSON]
  rw [h] at hr
  simp at hr
  subst hr
  exact ⟨_, rfl, rfl⟩

/-- C9, counterexample: an adapter built with an error function that counts its calls, given
the same body that does not bind twice in a row, answers 401 the first time and 402 the
second, although binding fails alike in both runs and the adapter is the same. -/
theorem counting_policy_runs_differ :
    rejectingEnv.Bind countingFirst.ctx.request = rejectingEnv.Bind countingSecond.ctx.request
      ∧ countingSecond.adapter = countingFirst.adapter
      ∧ (Stateful.TesoQLHandler rejectingEnv countingFirst).2.ctx.responses =
          [{ status := 401
             body := Body.error
               { Code := 401, Key := "BINDING_ERR"
                 Message := "Error encountered while binding the request payload!"
                 TesoQlErrCode := 400000 } }]
      ∧ (Stateful.TesoQLHandler rejectingEnv countingSecond).2.ctx.responses =
          [{ status := 402
             body := Body.error
               { Code := 402, Key := "BINDING_ERR"
                 Message := "Error encountered while binding the request payload!"
                 TesoQlErrCode := 400000 } }]
      ∧ ((Stateful.TesoQLHandler rejectingEnv countingFirst).2.ctx.responses.map
            Response.status ≠
          (Stateful.TesoQLHandler rejectingEnv countingSecond).2.ctx.responses.map
            Response.status) :=
  ⟨rfl, rfl, rfl, rfl, by decide⟩

/-- C9, amended: two runs of the handler on the same adapter and request, in which binding,
validation and execution give the same results and the error function answers alike for the
values its variables hold at the start of either run, end with the same return value, the
same responses and statuses and the same calls; each run leaves the adapter as it found it;
a run that calls the error function ends as that call ends, and a run that does not leaves
the variables of the error function as they were. -/
theorem handler_deterministic_up_to_policy_state {S : Type} (env1 env2 : Env Config TesoQL)
    (w1 w2 : Stateful.World Config TesoQL S)
    (ha : w1.adapter = w2.adapter)
    (hx : w1.ctx = w2.ctx)
    (hp : ∀ (c : Context) (a : Int) (k m : String) (t : Int),
      (w1.adapter.customErrorFunc w1.vars c a k m t).1 =
          (w1.adapter.customErrorFunc w2.vars c a k m t).1
        ∧ (w1.adapter.customErrorFunc w1.vars c a k m t).2.1 =
          (w1.adapter.customErrorFunc w2.vars c a k m t).2.1)
    (hk : env1.BINDING_ERR = env2.BINDING_ERR)
    (hc : env1.BINDING_ERR_CODE = env2.BINDING_ERR_CODE)
    (hb : env1.Bind w1.ctx.request = env2.Bind w1.ctx.request)
    (hv : ∀ q, env1.Bind w1.ctx.request = Except.ok q →
      env1.Validate q w1.adapter.cfg = env2.Validate q w1.adapter.cfg)
    (hg : ∀ q, env1.Bind w1.ctx.request = Except.ok q →
      env1.Validate q w1.adapter.cfg = none →
      env1.Get w1.adapter.tesoQL q = env2.Get w1.adapter.tesoQL q) :
    (Stateful.TesoQLHandler env1 w1).1 = (Stateful.TesoQLHandler env2 w2).1
      ∧ (Stateful.TesoQLHandler env1 w1).2.ctx = (Stateful.TesoQLHandler env2 w2).2.ctx
      ∧ (Stateful.TesoQLHandler env1 w1).2.ctx.responses =
          (Stateful.TesoQLHandler env2 w2).2.ctx.responses
      ∧ Stateful.newCalls env1 w1 = Stateful.newCalls env2 w2
      ∧ (Stateful.TesoQLHandler env1 w1).2.adapter = w1.adapter
      ∧ (Stateful.TesoQLHandler env2 w2).2.adapter = w2.adapter
      ∧ (∀ (a : Int) (k m : String) (t : Int),
          Call.errorFunc a k m t ∈ Stateful.newCalls env1 w1 →
            (Stateful.TesoQLHandler env1 w1).1 =
                (w1.adapter.customErrorFunc w1.vars w1.ctx a k m t).1
              ∧ (Stateful.TesoQLHandler env1 w1).2.ctx =
                (w1.adapter.customErrorFunc w1.vars w1.ctx a k m t).2.1
              ∧ (Stateful.TesoQLHandler env1 w1).2.vars =
                (w1.adapter.customErrorFunc w1.vars w1.ctx a k m t).2.2)
      ∧ ((Stateful.newCalls env1 w1).countP Call.isErrorFunc = 0 →
          (Stateful.TesoQLHandler env1 w1).2.vars = w1.vars) := by
  rcases stateful_runs_take_same_branch env1 env2 w1 w2 ha hx hk hc hb hv hg with
    ⟨a, k, m, t, pre, h1, h2, hcnt⟩ | ⟨resp, pre, h1, h2, hcnt⟩
  · obtain ⟨p1, p2⟩ := hp w1.ctx a k m t
    have r1 : (Stateful.TesoQLHandler env1 w1).1 =
        (w1.adapter.customErrorFunc w1.vars w1.ctx a k m t).1 := by rw [h1]; rfl
    have c1 : (Stateful.TesoQLHandler env1 w1).2.ctx =
        (w1.adapter.customErrorFunc w1.vars w1.ctx a k m t).2.1 := by rw [h1]; rfl
    have v1 : (Stateful.TesoQLHandler env1 w1).2.vars =
        (w1.adapter.customErrorFunc w1.vars w1.ctx a k m t).2.2 := by rw [h1]; rfl
    have r2 : (Stateful.TesoQLHandler env2 w2).1 =
        (w1.adapter.customErrorFunc w2.vars w1.ctx a k m t).1 := by rw [h2, ha, hx]; rfl
    have c2 : (Stateful.TesoQLHandler env2 w2).2.ctx =
        (w1.adapter.customErrorFunc w2.vars w1.ctx a k m t).2.1 := by rw [h2, ha, hx]; rfl
    have n1 : Stateful.newCalls env1 w1 = pre ++ [Call.errorFunc a k m t] := by
      simp [Stateful.newCalls, h1, Stateful.callErrorFunc]
    have n2 : Stateful.newCalls env2 w2 = pre ++ [Call.errorFunc a k m t] := by
      simp [Stateful.newCalls, h2, Stateful.callErrorFunc]
    refine ⟨by rw [r1, r2, p1], by rw [c1, c2, p2], by rw [c1, c2, p2], by rw [n1, n2],
      by rw [h1]; rfl, by rw [h2]; rfl, ?_, ?_⟩
    · intro a' k' m' t' hmem
      rw [n1] at hmem
      rcases List.mem_append.1 hmem with hin | hin
      · have hpos : 0 < pre.countP Call.isErrorFunc :=
          List.countP_pos_iff.2 ⟨_, hin, rfl⟩
        omega
      · simp at hin
        obtain ⟨rfl, rfl, rfl, rfl⟩ := hin
        exact ⟨r1, c1, v1⟩
    · intro h0
      rw [n1, List.countP_append] at h0
      simp [Call.isErrorFunc] at h0
  · have c1 : (Stateful.TesoQLHandler env1 w1).2.ctx =
        (w1.ctx.JSON StatusOK (Body.response resp)).2 := by rw [h1]; rfl
    have c2 : (Stateful.TesoQLHandler env2 w2).2.ctx =
        (w1.ctx.JSON StatusOK (Body.response resp)).2 := by rw [h2, hx]; rfl
    have n1 : Stateful.newCalls env1 w1 = pre ++ [Call.json StatusOK resp] := by
      simp [Stateful.newCalls, h1, Stateful.callJSON]
    have n2 : Stateful.newCalls env2 w2 = pre ++ [Call.json StatusOK resp] := by
      simp [Stateful.newCalls, h2, Stateful.callJSON]
    refine ⟨by rw [h1, h2]; rfl, by rw [c1, c2], by rw [c1, c2], by rw [n1, n2],
      by rw [h1]; rfl, by rw [h2]; rfl, ?_, fun _ => by rw [h1]; rfl⟩
    intro a k m t hmem
    rw [n1] at hmem
    rcases List.mem_append.1 hmem with hin | hin
    · have hpos : 0 < pre.countP Call.isErrorFunc :=
        List.countP_pos_iff.2 ⟨_, hin, rfl⟩
      omega
    · simp at hin

/-- Witness for C9: two runs of the adapter built without an error function, the variables
holding 0 in one and 5 in the other, whose collaborators differ only in what the execution
service would have returned, on a request that fails validation in both. -/
theorem handler_deterministic_up_to_policy_state_witness :
    (Stateful.TesoQLHandler (demoEnv (Except.ok demoQuery) (some demoError) ([], 0, 0, none))
        (defaultWorldAt 0)).2.ctx.responses =
      (Stateful.TesoQLHandler
        (demoEnv (Except.ok demoQuery) (some demoError) ([demoRow], 7, 1, none))
        (defaultWorldAt 5)).2.ctx.responses :=
  (handler_deterministic_up_to_policy_state
    (demoEnv (Except.ok demoQuery) (some demoError) ([], 0, 0, none))
    (demoEnv (Except.ok demoQuery) (some demoError) ([demoRow], 7, 1, none))
    (defaultWorldAt 0) (defaultWorldAt 5) rfl rfl (fun _ _ _ _ _ => ⟨rfl, rfl⟩) rfl rfl rfl
    (fun _ _ => rfl) (fun _ _ hv => by simp [demoEnv, defaultWorldAt] at hv)).2.2.1

/-- C10: the status handed to the error function for a validation or execution error with
code E is the truncating quotient E / 1000, whatever E is, and the request ends as the error
function ends when called with it; for every E strictly between -1000 and 1000 that status
is 0, the error function is called with 0 and the request ends as that call ends. -/
theorem status_is_truncated_quotient (env : Env Config TesoQL) (w : World Config TesoQL)
    (q : JsonMap) (e : ErrorModel) (hb : env.Bind w.ctx.request = Except.ok q) :
    (env.Validate q w.adapter.cfg = some e →
        newCalls env w =
            [Call.bind, Call.validate q,
             Call.errorFunc (e.ErrorCode.tdiv 1000) e.ErrorType e.ErrorMsg e.ErrorCode]
          ∧ (TesoQLHandler env w).1 =
              (w.adapter.customErrorFunc w.ctx (e.ErrorCode.tdiv 1000) e.ErrorType e.ErrorMsg
                e.ErrorCode).1
          ∧ (TesoQLHandler env w).2.ctx =
              (w.adapter.customErrorFunc w.ctx (e.ErrorCode.tdiv 1000) e.ErrorType e.ErrorMsg
                e.ErrorCode).2
          ∧ (-1000 < e.ErrorCode → e.ErrorCode < 1000 →
              newCalls env w =
                  [Call.bind, Call.validate q,
                   Call.errorFunc 0 e.ErrorType e.ErrorMsg e.ErrorCode]
                ∧ TesoQLHandler env w =
                    callErrorFunc w.adapter.customErrorFunc 0 e.ErrorType e.ErrorMsg
                      e.ErrorCode
                      { w with calls := w.calls ++ [Call.bind, Call.validate q] }
                ∧ (TesoQLHandler env w).1 =
                    (w.adapter.customErrorFunc w.ctx 0 e.ErrorType e.ErrorMsg e.ErrorCode).1
                ∧ (TesoQLHandler env w).2.ctx =
                    (w.adapter.customErrorFunc w.ctx 0 e.ErrorType e.ErrorMsg e.ErrorCode).2))
      ∧ (env.Validate q w.adapter.cfg = none →
          ∀ (data : List JsonMap) (totalCount length : Int),
            env.Get w.adapter.tesoQL q = (data, totalCount, length, some e) →
              newCalls env w =
                  [Call.bind, Call.validate q, Call.get q,
                   Call.errorFunc (e.ErrorCode.tdiv 1000) e.ErrorType e.ErrorMsg e.ErrorCode]
                ∧ (TesoQLHandler env w).1 =
                    (w.adapter.customErrorFunc w.ctx (e.ErrorCode.tdiv 1000) e.ErrorType
                      e.ErrorMsg e.ErrorCode).1
                ∧ (TesoQLHandler env w).2.ctx =
                    (w.adapter.customErrorFunc w.ctx (e.ErrorCode.tdiv 1000) e.ErrorType
                      e.ErrorMsg e.ErrorCode).2
                ∧ (-1000 < e.ErrorCode → e.ErrorCode < 1000 →
                    newCalls env w =
                        [Call.bind, Call.validate q, Call.get q,
                         Call.errorFunc 0 e.ErrorType e.ErrorMsg e.ErrorCode]
                      ∧ TesoQLHandler env w =
                          callErrorFunc w.adapter.customErrorFunc 0 e.ErrorType e.ErrorMsg
                            e.ErrorCode
                            { w with
                              calls := w.calls ++
                                [Call.bind, Call.validate q, Call.get q] }
                      ∧ (TesoQLHandler env w).1 =
                          (w.adapter.customErrorFunc w.ctx 0 e.ErrorType e.ErrorMsg
                            e.ErrorCode).1
                      ∧ (TesoQLHandler env w).2.ctx =
                          (w.adapter.customErrorFunc w.ctx 0 e.ErrorType e.ErrorMsg
                            e.ErrorCode).2)) := by
  constructor
  · intro hv
    have hr := handler_validation_error env w q e hb hv
    refine ⟨newCalls_validation_error env w q e hb hv, by rw [hr]; rfl, by rw [hr]; rfl,
      fun h1 h2 => ?_⟩
    rw [newCalls_validation_error env w q e hb hv, hr,
      tdiv_thousand_eq_zero e.ErrorCode h1 h2]
    exact ⟨rfl, rfl, rfl, rfl⟩
  · intro hv data totalCount length hg
    have hr := handler_service_error env w q data totalCount length e hb hv hg
    refine ⟨newCalls_service_error env w q data totalCount length e hb hv hg,
      by rw [hr]; rfl, by rw [hr]; rfl, fun h1 h2 => ?_⟩
    rw [newCalls_service_error env w q data totalCount length e hb hv hg, hr,
      tdiv_thousand_eq_zero e.ErrorCode h1 h2]
    exact ⟨rfl, rfl, rfl, rfl⟩

/-- Witness for C10: a validation error with code 999, under the default error function,
is answered with status 0. -/
theorem status_is_truncated_quotient_witness :
    (TesoQLHandler (demoEnv (Except.ok demoQuery) (some lowCodeError) ([], 0, 0, none))
        (demoWorld NewHTTPError)).2.ctx =
      (NewHTTPError demoContext 0 "LOW" "code below one thousand" 999).2 :=
  (((status_is_truncated_quotient
    (demoEnv (Except.ok demoQuery) (some lowCodeError) ([], 0, 0, none))
    (demoWorld NewHTTPError) demoQuery lowCodeError rfl).1 rfl).2.2.2
    (by decide) (by decide)).2.2.2

end Claims

end TesoqlEcho
